import Mathlib

/-!
Shallow embedding of the arXiv analyzer orchestration layer, translated from
`src/example/arxiv_analyzer.py` (class `ArxivAnalyzer`, Anthropic backend) and
`src/example/arxiv_analyzer_gemini.py` (class `ArxivAnalyzerGemini`, Gemini backend).

Both classes build prompts from paper dictionaries with identical f-strings, so the
prompt-construction functions are defined once and shared.  The generation backend is
abstracted as a function `String → Except String String`: given the prompt it either
returns generated text or fails with a reason string (the exception message `str(e)`).
The generation configuration (temperature, top_p, top_k, max output tokens) does not
influence any property treated here and is absorbed into the provider function.

The two classes differ in `batch_analyze_papers`: the Gemini variant wraps the per-paper
call in try/except and writes an error sentinel, while the Anthropic variant has no
exception handling, so a per-item failure propagates and aborts the batch.  Both are
embedded separately in their own namespaces.
-/

/-- Paper dictionary as produced by `search_papers` (both files, identical shape):
title, authors, summary (the abstract), published, updated, arxiv_id, pdf_url,
categories, primary_category.  `batch_analyze_papers` may add an `analysis` key to a
copy of the dictionary; the optional `analysis` field models that key, `none` meaning
the key is absent. -/
structure Paper where
  title : String
  authors : List String
  summary : String
  published : String
  updated : String
  arxiv_id : String
  pdf_url : String
  categories : List String
  primary_category : String
  analysis : Option String := none
  deriving Repr, DecidableEq

/-- Header block rendered by `analyze_paper` in both files (`paper_content` f-string,
arxiv_analyzer.py lines 105-116, arxiv_analyzer_gemini.py lines 109-120). -/
def paper_content (p : Paper) : String :=
  "\nTitle: " ++ p.title ++ "\n\nAuthors: " ++ String.intercalate ", " p.authors ++
  "\n\nPublished: " ++ p.published ++ "\n\nCategories: " ++
  String.intercalate ", " p.categories ++ "\n\nAbstract:\n" ++ p.summary ++ "\n"

/-- Instruction template for `analysis_type = "summary"` (the `prompts` dict). -/
def summary_instruction : String :=
  "Please provide a concise summary of this paper, highlighting the main contributions and findings."

/-- Instruction template for `analysis_type = "key_findings"`. -/
def key_findings_instruction : String :=
  "What are the key findings and contributions of this paper? List them clearly."

/-- Instruction template for `analysis_type = "methodology"`. -/
def methodology_instruction : String :=
  "Analyze the methodology used in this paper. What approaches did the authors take?"

/-- Instruction template for `analysis_type = "critique"`. -/
def critique_instruction : String :=
  "Provide a balanced critique of this paper, discussing both strengths and potential limitations."

/-- Lookup in the `prompts` dict: `prompts.get(analysis_type)` without default. -/
def prompts_get (kind : String) : Option String :=
  if kind = "summary" then some summary_instruction
  else if kind = "key_findings" then some key_findings_instruction
  else if kind = "methodology" then some methodology_instruction
  else if kind = "critique" then some critique_instruction
  else none

/-- The line `analysis_prompt = custom_prompt or prompts.get(analysis_type, prompts["summary"])`
(arxiv_analyzer.py line 126, arxiv_analyzer_gemini.py line 130).  Python `or` takes the
right operand when `custom_prompt` is `None` or the empty string (both falsy); the dict
`get` falls back to the `"summary"` entry for unknown keys. -/
def analysis_prompt (custom : Option String) (kind : String) : String :=
  match custom with
  | some s => if s = "" then (prompts_get kind).getD summary_instruction else s
  | none => (prompts_get kind).getD summary_instruction

/-- The full single-paper prompt `f"{paper_content}\n\n{analysis_prompt}"`. -/
def full_prompt (p : Paper) (kind : String) (custom : Option String) : String :=
  paper_content p ++ "\n\n" ++ analysis_prompt custom kind

/-- Method `analyze_paper` of both classes: build the full prompt, make one provider
call, return the raw response text (or the provider failure) unmodified. -/
def analyze_paper (provider : String → Except String String) (p : Paper)
    (kind : String) (custom : Option String) : Except String String :=
  provider (full_prompt p kind custom)

namespace ArxivAnalyzerGemini

/-- Method `batch_analyze_papers` of `ArxivAnalyzerGemini` (lines 150-183): iterate the
papers in order; on success attach the returned text to a copy of the paper under the
`analysis` key; on a per-item exception `e`, catch it and attach `"Error: " + str(e)`
instead, then continue with the next paper. -/
def batch_analyze_papers (provider : String → Except String String) (kind : String)
    (papers : List Paper) : List Paper :=
  papers.map fun p =>
    match analyze_paper provider p kind none with
    | .ok a => { p with analysis := some a }
    | .error e => { p with analysis := some ("Error: " ++ e) }

end ArxivAnalyzerGemini

namespace ArxivAnalyzer

/-- Method `batch_analyze_papers` of `ArxivAnalyzer` (lines 142-167): iterate the papers
in order and attach the analysis text to a copy of each paper; there is no try/except, so
an exception from `analyze_paper` aborts the whole call and propagates to the caller. -/
def batch_analyze_papers (provider : String → Except String String) (kind : String) :
    List Paper → Except String (List Paper)
  | [] => .ok []
  | p :: rest =>
    match analyze_paper provider p kind none with
    | .error e => .error e
    | .ok a =>
      match batch_analyze_papers provider kind rest with
      | .error e => .error e
      | .ok tail => .ok ({ p with analysis := some a } :: tail)

end ArxivAnalyzer

/-- One numbered paper block of the comparison prompt, `f"\nPaper {i}:\nTitle: ...\nAuthors:
...\nAbstract: ...\n\n---\n"` (arxiv_analyzer.py lines 184-192, arxiv_analyzer_gemini.py
lines 205-213). -/
def paper_block (i : Nat) (p : Paper) : String :=
  "\nPaper " ++ toString i ++ ":\nTitle: " ++ p.title ++ "\nAuthors: " ++
  String.intercalate ", " p.authors ++ "\nAbstract: " ++ p.summary ++ "\n\n---\n"

/-- The `papers_text` accumulation loop, enumerating papers from 1. -/
def papers_text_from (i : Nat) : List Paper → String
  | [] => ""
  | p :: rest => paper_block i p ++ papers_text_from (i + 1) rest

/-- First comparison directive line. -/
def directive1 : String := "1. Identifying common themes and research directions"

/-- Second comparison directive line. -/
def directive2 : String := "2. Highlighting key differences in approach or findings"

/-- Third comparison directive line. -/
def directive3 : String := "3. Discussing how these papers relate to each other"

/-- Fourth comparison directive line. -/
def directive4 : String := "4. Noting any complementary or contradictory findings"

/-- The comparison prompt f-string of `compare_papers` (identical in both files). -/
def compare_prompt (papers : List Paper) : String :=
  "Here are " ++ toString papers.length ++ " research papers. Please compare them by:\n\n" ++
  directive1 ++ "\n" ++ directive2 ++ "\n" ++ directive3 ++ "\n" ++ directive4 ++
  "\n\nPapers:\n" ++ papers_text_from 1 papers ++
  "\n\nPlease provide a comparative analysis:"

/-- Method `compare_papers` (identical logic in both classes, arxiv_analyzer.py lines
169-214, arxiv_analyzer_gemini.py lines 185-239): raise `ValueError("Need at least 2
papers to compare")` for fewer than 2 papers, otherwise build the comparison prompt and
make a single provider call, returning its text. -/
def compare_papers (provider : String → Except String String) (papers : List Paper) :
    Except String String :=
  if papers.length < 2 then .error "Need at least 2 papers to compare"
  else provider (compare_prompt papers)

/-- The `abstracts` string of `extract_key_concepts`:
`"\n\n".join([f"Paper: {p['title']}\n{p['summary']}" for p in papers])`. -/
def concept_abstracts (papers : List Paper) : String :=
  String.intercalate "\n\n" (papers.map fun p => "Paper: " ++ p.title ++ "\n" ++ p.summary)

/-- The concept-extraction prompt f-string (arxiv_analyzer_gemini.py lines 259-269);
the source line ends with a space after "important" before the line break. -/
def concept_prompt (papers : List Paper) (max_concepts : Nat) : String :=
  "Analyze these research paper abstracts and extract the " ++ toString max_concepts ++
  " most important \ntechnical concepts, methods, or themes. For each concept, provide a brief explanation.\n\nFormat your response as a numbered list:\n1. Concept Name: Brief explanation\n2. Concept Name: Brief explanation\n...\n\nAbstracts:\n" ++
  concept_abstracts papers ++ "\n"

namespace ArxivAnalyzerGemini

/-- Method `extract_key_concepts` of `ArxivAnalyzerGemini` (lines 241-272): one provider
call over the concatenated abstracts; the value returned is `response.text`, the raw
generated string, even though the Python signature declares `Dict[str, int]`. -/
def extract_key_concepts (provider : String → Except String String)
    (papers : List Paper) (max_concepts : Nat) : Except String String :=
  provider (concept_prompt papers max_concepts)

end ArxivAnalyzerGemini

/-- Substring containment: `t` occurs contiguously inside `s`. -/
def ContainsStr (s t : String) : Prop := ∃ a b, s = a ++ t ++ b

/-- Sample paper used to instantiate the theorems on concrete inputs. -/
def paperA : Paper :=
  { title := "Attention Is All You Need"
    authors := ["Ashish Vaswani", "Noam Shazeer"]
    summary := "We propose the Transformer architecture."
    published := "2017-06-12"
    updated := "2017-06-12"
    arxiv_id := "1706.03762v1"
    pdf_url := "http://arxiv.org/pdf/1706.03762v1"
    categories := ["cs.CL", "cs.LG"]
    primary_category := "cs.CL" }

/-- Second sample paper. -/
def paperB : Paper :=
  { title := "Deep Residual Learning"
    authors := ["Kaiming He"]
    summary := "Residual networks ease the training of deep models."
    published := "2015-12-10"
    updated := "2015-12-10"
    arxiv_id := "1512.03385v1"
    pdf_url := "http://arxiv.org/pdf/1512.03385v1"
    categories := ["cs.CV"]
    primary_category := "cs.CV" }

/-- Provider stub that always succeeds with a fixed text. -/
def okProvider : String → Except String String := fun _ => .ok "generated analysis text"

/-- Provider stub that always fails. -/
def failProvider : String → Except String String := fun _ => .error "backend unreachable"

/-- Provider stub that fails exactly on the single-paper summary prompt of `paperA` and
succeeds on every other prompt. -/
def failOnAProvider : String → Except String String := fun s =>
  if s = full_prompt paperA "summary" none then .error "quota exceeded"
  else .ok "generated analysis text"

theorem containsStr_self (s : String) : ContainsStr s s :=
  ⟨"", "", by rw [String.empty_append, String.append_empty]⟩

theorem containsStr_append_left (s u t : String) (h : ContainsStr s t) :
    ContainsStr (s ++ u) t := by
  obtain ⟨a, b, rfl⟩ := h
  exact ⟨a, b ++ u, by rw [String.append_assoc (a ++ t) b u]⟩

theorem containsStr_append_right (s u t : String) (h : ContainsStr s t) :
    ContainsStr (u ++ s) t := by
  obtain ⟨a, b, rfl⟩ := h
  exact ⟨u ++ a, b, by simp [String.append_assoc]⟩

theorem gemini_batch_getElem (provider : String → Except String String) (kind : String)
    (papers : List Paper) (i : Nat) :
    (ArxivAnalyzerGemini.batch_analyze_papers provider kind papers)[i]? =
      (papers[i]?).map fun p =>
        match analyze_paper provider p kind none with
        | .ok a => { p with analysis := some a }
        | .error e => { p with analysis := some ("Error: " ++ e) } := by
  simp [ArxivAnalyzerGemini.batch_analyze_papers, List.getElem?_map]

theorem claude_batch_ok_spec (provider : String → Except String String) (kind : String) :
    ∀ (papers out : List Paper),
      ArxivAnalyzer.batch_analyze_papers provider kind papers = .ok out →
      out.length = papers.length ∧
      ∀ (i : Nat) (p : Paper), papers[i]? = some p →
        ∃ a, analyze_paper provider p kind none = .ok a ∧
          out[i]? = some { p with analysis := some a } := by
  intro papers
  induction papers with
  | nil =>
    intro out h
    simp only [ArxivAnalyzer.batch_analyze_papers, Except.ok.injEq] at h
    subst h
    exact ⟨rfl, by intro i p hp; simp at hp⟩
  | cons p rest ih =>
    intro out h
    simp only [ArxivAnalyzer.batch_analyze_papers] at h
    cases ha : analyze_paper provider p kind none with
    | error e => rw [ha] at h; simp at h
    | ok a =>
      rw [ha] at h
      cases hr : ArxivAnalyzer.batch_analyze_papers provider kind rest with
      | error e => rw [hr] at h; simp at h
      | ok tail =>
        rw [hr] at h
        simp only [Except.ok.injEq] at h
        subst h
        obtain ⟨hlen, hidx⟩ := ih tail hr
        refine ⟨by simp [hlen], ?_⟩
        intro i q hq
        cases i with
        | zero =>
          simp only [List.getElem?_cons_zero, Option.some.injEq] at hq
          subst hq
          exact ⟨a, ha, by simp⟩
        | succ j =>
          simp only [List.getElem?_cons_succ] at hq ⊢
          exact hidx j q hq

theorem papers_text_from_contains (papers : List Paper) :
    ∀ (i j : Nat) (hj : j < papers.length),
      ContainsStr (papers_text_from i papers) (paper_block (i + j) (papers.get ⟨j, hj⟩)) := by
  induction papers with
  | nil => intro i j hj; simp at hj
  | cons p rest ih =>
    intro i j hj
    cases j with
    | zero =>
      simp only [papers_text_from, Nat.add_zero, List.get]
      exact containsStr_append_left _ _ _ (containsStr_self _)
    | succ k =>
      have hk : k < rest.length := by simpa using hj
      have h := ih (i + 1) k hk
      have hik : i + (k + 1) = (i + 1) + k := by omega
      rw [hik]
      simp only [papers_text_from, List.get]
      exact containsStr_append_right _ _ _ h

/-- C3: for every paper, when the bound generation provider succeeds, `analyze_paper`
returns the provider text unmodified, and in `batch_analyze_papers` the corresponding
output entry carries exactly that text in its analysis field, with no truncation or
mutation. -/
theorem claim3_verbatim (provider : String → Except String String) (kind : String) :
    (∀ (p : Paper) (custom : Option String) (t : String),
        provider (full_prompt p kind custom) = .ok t →
        analyze_paper provider p kind custom = .ok t)
    ∧ ∀ (papers : List Paper) (i : Nat) (p : Paper) (t : String),
        papers[i]? = some p →
        provider (full_prompt p kind none) = .ok t →
        (ArxivAnalyzerGemini.batch_analyze_papers provider kind papers)[i]? =
          some { p with analysis := some t } := by
  constructor
  · intro p custom t h
    exact h
  · intro papers i p t hp h
    rw [gemini_batch_getElem, hp]
    simp [analyze_paper, h]

theorem claim3_witness :
    analyze_paper okProvider paperA "summary" none = .ok "generated analysis text" ∧
    (ArxivAnalyzerGemini.batch_analyze_papers okProvider "summary" [paperA])[0]? =
      some { paperA with analysis := some "generated analysis text" } :=
  ⟨(claim3_verbatim okProvider "summary").1 paperA none "generated analysis text" rfl,
   (claim3_verbatim okProvider "summary").2 [paperA] 0 paperA "generated analysis text" rfl rfl⟩

/-- C4: single-paper prompt construction is a pure function of the paper header fields,
the analysis kind and the custom instruction: whenever two inputs agree on everything the
prompt reads (title, authors, published, categories, abstract, kind, custom), the
rendered prompt text is byte-identical.  Side-effect freedom is inherent: `full_prompt`
is a total function on its arguments and touches no state. -/
theorem claim4_deterministic (p q : Paper) (kind kind2 : String)
    (custom custom2 : Option String)
    (ht : p.title = q.title) (ha : p.authors = q.authors) (hpub : p.published = q.published)
    (hcat : p.categories = q.categories) (hs : p.summary = q.summary)
    (hk : kind = kind2) (hc : custom = custom2) :
    full_prompt p kind custom = full_prompt q kind2 custom2 := by
  subst hk
  subst hc
  simp [full_prompt, paper_content, ht, ha, hpub, hcat, hs]

theorem claim4_witness :
    full_prompt paperA "critique" (some "Focus on limitations") =
      full_prompt paperA "critique" (some "Focus on limitations") :=
  claim4_deterministic paperA paperA "critique" "critique" (some "Focus on limitations")
    (some "Focus on limitations") rfl rfl rfl rfl rfl rfl rfl

/-- C9: `extract_key_concepts` returns the raw generated text of the single provider
call as a plain string, not a structured concept-to-score mapping: whatever text the
provider produces for the concept prompt is the whole result. -/
theorem claim9_concepts_raw_text (provider : String → Except String String)
    (papers : List Paper) (max_concepts : Nat) (t : String)
    (h : provider (concept_prompt papers max_concepts) = .ok t) :
    ArxivAnalyzerGemini.extract_key_concepts provider papers max_concepts = .ok t := h

theorem claim9_witness :
    ArxivAnalyzerGemini.extract_key_concepts okProvider [paperA, paperB] 10 =
      .ok "generated analysis text" :=
  claim9_concepts_raw_text okProvider [paperA, paperB] 10 "generated analysis text" rfl

/-- C1 counterexample: the claim fails for the Anthropic variant.  With a provider that
fails, `ArxivAnalyzer.batch_analyze_papers` on the one-paper input does not return a
sequence at all: the per-item failure propagates and the call aborts, so no output entry
exists for the input paper. -/
theorem claim1_counterexample :
    ArxivAnalyzer.batch_analyze_papers failProvider "summary" [paperA] =
      .error "backend unreachable" := rfl

/-- C1 (amended): the Gemini variant satisfies the claim unconditionally: for every
provider and every input sequence, `batch_analyze_papers` returns exactly one entry per
input paper, in input order (the i-th output is the i-th input with only its analysis
field set), with the analysis field of every entry populated.  The Anthropic variant
gives the same guarantee only on the calls that return a sequence, i.e. when analysis
succeeds for every paper; on a per-item failure it aborts instead of returning. -/
theorem claim1_batch_length_order (provider : String → Except String String) (kind : String)
    (papers : List Paper) :
    ((ArxivAnalyzerGemini.batch_analyze_papers provider kind papers).length = papers.length
      ∧ ∀ (i : Nat) (p : Paper), papers[i]? = some p →
          ∃ a, (ArxivAnalyzerGemini.batch_analyze_papers provider kind papers)[i]? =
            some { p with analysis := some a })
    ∧ ∀ out : List Paper, ArxivAnalyzer.batch_analyze_papers provider kind papers = .ok out →
        out.length = papers.length ∧
        ∀ (i : Nat) (p : Paper), papers[i]? = some p →
          ∃ a, out[i]? = some { p with analysis := some a } := by
  refine ⟨⟨?_, ?_⟩, ?_⟩
  · simp [ArxivAnalyzerGemini.batch_analyze_papers]
  · intro i p hp
    rw [gemini_batch_getElem, hp]
    cases h : analyze_paper provider p kind none with
    | ok a => exact ⟨a, by simp [h]⟩
    | error e => exact ⟨"Error: " ++ e, by simp [h]⟩
  · intro out h
    obtain ⟨hlen, hidx⟩ := claude_batch_ok_spec provider kind papers out h
    refine ⟨hlen, fun i p hp => ?_⟩
    obtain ⟨a, _, hout⟩ := hidx i p hp
    exact ⟨a, hout⟩

theorem claim1_witness :
    (ArxivAnalyzerGemini.batch_analyze_papers failProvider "summary" [paperA, paperB]).length = 2
    ∧ ∃ a, (ArxivAnalyzerGemini.batch_analyze_papers failProvider "summary"
        [paperA, paperB])[0]? = some { paperA with analysis := some a } :=
  ⟨(claim1_batch_length_order failProvider "summary" [paperA, paperB]).1.1,
   (claim1_batch_length_order failProvider "summary" [paperA, paperB]).1.2 0 paperA rfl⟩

set_option maxRecDepth 40000 in
/-- C2 counterexample: the claim fails for the Anthropic variant.  With a provider that
fails for `paperA` and succeeds for `paperB`, `ArxivAnalyzer.batch_analyze_papers` on
`[paperA, paperB]` is aborted by the per-item failure: the error propagates, no error
sentinel is written, and the entry for `paperB` is dropped. -/
theorem claim2_counterexample :
    ArxivAnalyzer.batch_analyze_papers failOnAProvider "summary" [paperA, paperB] =
      .error "quota exceeded" := rfl

/-- C2 (amended): in the Gemini variant, a per-item failure is caught and converted to
an analysis string with the exact prefix "Error: " followed by the failure reason, and
the batch continues: every other paper for which the provider succeeds keeps its real
analysis text in its own entry, so one failure never removes or blanks other entries.
In the Anthropic variant there is no such recovery: a per-item failure aborts the batch
(see the counterexample). -/
theorem claim2_error_isolation (provider : String → Except String String) (kind : String)
    (papers : List Paper) (i : Nat) (p : Paper) (e : String)
    (hp : papers[i]? = some p)
    (he : provider (full_prompt p kind none) = .error e) :
    (ArxivAnalyzerGemini.batch_analyze_papers provider kind papers)[i]? =
      some { p with analysis := some ("Error: " ++ e) }
    ∧ ∀ (j : Nat) (q : Paper) (t : String), papers[j]? = some q →
        provider (full_prompt q kind none) = .ok t →
        (ArxivAnalyzerGemini.batch_analyze_papers provider kind papers)[j]? =
          some { q with analysis := some t } := by
  constructor
  · rw [gemini_batch_getElem, hp]
    simp [analyze_paper, he]
  · intro j q t hq ht
    rw [gemini_batch_getElem, hq]
    simp [analyze_paper, ht]

set_option maxRecDepth 40000 in
theorem claim2_witness :
    (ArxivAnalyzerGemini.batch_analyze_papers failOnAProvider "summary" [paperA, paperB])[0]? =
      some { paperA with analysis := some ("Error: " ++ "quota exceeded") } :=
  (claim2_error_isolation failOnAProvider "summary" [paperA, paperB] 0 paperA "quota exceeded"
    rfl rfl).1

set_option maxRecDepth 40000 in
/-- C5 counterexample: the claim fails for the empty custom instruction.  Supplying the
custom instruction "" does not take precedence over the kind: `custom_prompt or ...`
treats the empty string as falsy, so the prompt falls back to the kind-selected template
instead of rendering the header followed by the supplied (empty) instruction. -/
theorem claim5_counterexample :
    full_prompt paperA "critique" (some "") ≠ paper_content paperA ++ "\n\n" ++ "" ∧
    full_prompt paperA "critique" (some "") = full_prompt paperA "critique" none :=
  ⟨by decide, rfl⟩

/-- C5 (amended): whenever a non-empty custom instruction is supplied, the rendered
prompt uses it in place of the kind-selected template, for every paper and every kind;
the empty custom string is treated like an absent one (Python falsiness) and falls back
to the kind template. -/
theorem claim5_custom_precedence (p : Paper) (kind : String) (s : String) (h : s ≠ "") :
    full_prompt p kind (some s) = paper_content p ++ "\n\n" ++ s := by
  simp [full_prompt, analysis_prompt, h]

theorem claim5_witness :
    full_prompt paperA "critique" (some "Focus only on the evaluation section") =
      paper_content paperA ++ "\n\n" ++ "Focus only on the evaluation section" :=
  claim5_custom_precedence paperA "critique" "Focus only on the evaluation section" (by decide)

/-- C6: for every paper, an analysis kind outside the four enumerated values with no
custom instruction does not fail: the prompt falls back to the summary template, so the
rendered prompt is identical to the one kind "summary" produces. -/
theorem claim6_unknown_kind_fallback (p : Paper) (kind : String)
    (h1 : kind ≠ "summary") (h2 : kind ≠ "key_findings")
    (h3 : kind ≠ "methodology") (h4 : kind ≠ "critique") :
    full_prompt p kind none = full_prompt p "summary" none := by
  simp [full_prompt, analysis_prompt, prompts_get, h1, h2, h3, h4]

theorem claim6_witness :
    full_prompt paperA "bogus_kind" none = full_prompt paperA "summary" none :=
  claim6_unknown_kind_fallback paperA "bogus_kind" (by decide) (by decide) (by decide)
    (by decide)

/-- C7: `compare_papers` fails with the insufficient-input error exactly on inputs of
fewer than 2 papers, with a result independent of the provider (no provider call is
reflected in the result), and for 2 or more papers it builds the comparison prompt and
returns the single provider call on it. -/
theorem claim7_compare_input_check (provider : String → Except String String)
    (papers : List Paper) :
    (papers.length < 2 →
      compare_papers provider papers = .error "Need at least 2 papers to compare")
    ∧ (2 ≤ papers.length →
      compare_papers provider papers = provider (compare_prompt papers)) := by
  constructor
  · intro h
    simp [compare_papers, h]
  · intro h
    simp [compare_papers, Nat.not_lt.mpr h]

theorem claim7_witness :
    compare_papers okProvider [paperA] = .error "Need at least 2 papers to compare" ∧
    compare_papers okProvider [paperA, paperB] = okProvider (compare_prompt [paperA, paperB]) :=
  ⟨(claim7_compare_input_check okProvider [paperA]).1 (by decide),
   (claim7_compare_input_check okProvider [paperA, paperB]).2 (by decide)⟩

/-- C8: for every sequence of at least 2 papers, the comparison prompt is one rendered
string containing, for each input index j, the numbered block of paper j (its title,
comma-joined authors and abstract, ending with the "---" delimiter), and containing all
four fixed comparison directives. -/
theorem claim8_compare_prompt_contents (papers : List Paper) (h : 2 ≤ papers.length) :
    (∀ (j : Nat) (hj : j < papers.length),
      ContainsStr (compare_prompt papers) (paper_block (1 + j) (papers.get ⟨j, hj⟩)))
    ∧ ContainsStr (compare_prompt papers) directive1
    ∧ ContainsStr (compare_prompt papers) directive2
    ∧ ContainsStr (compare_prompt papers) directive3
    ∧ ContainsStr (compare_prompt papers) directive4 := by
  refine ⟨?_, ?_, ?_, ?_, ?_⟩
  · intro j hj
    have hb := papers_text_from_contains papers 1 j hj
    unfold compare_prompt
    exact containsStr_append_left _ _ _ (containsStr_append_right _ _ _ hb)
  all_goals
    unfold compare_prompt
    repeat first
      | exact containsStr_append_right _ _ _ (containsStr_self _)
      | apply containsStr_append_left

theorem claim8_witness :
    ContainsStr (compare_prompt [paperA, paperB]) (paper_block 1 paperA) ∧
    ContainsStr (compare_prompt [paperA, paperB]) directive1 :=
  ⟨(claim8_compare_prompt_contents [paperA, paperB] (by decide)).1 0 (by decide),
   (claim8_compare_prompt_contents [paperA, paperB] (by decide)).2.1⟩

/-- C10: batch analysis modifies only the analysis field: in both variants, every
output entry agrees with the corresponding input paper on every field other than
analysis.  Input immutability is inherent to the embedding: both functions are pure,
attach the analysis to a fresh copy of the record and leave the input list untouched. -/
theorem claim10_frame (provider : String → Except String String) (kind : String) :
    (∀ (papers : List Paper) (i : Nat) (p p2 : Paper), papers[i]? = some p →
      (ArxivAnalyzerGemini.batch_analyze_papers provider kind papers)[i]? = some p2 →
      p2.title = p.title ∧ p2.authors = p.authors ∧ p2.summary = p.summary ∧
      p2.published = p.published ∧ p2.updated = p.updated ∧ p2.arxiv_id = p.arxiv_id ∧
      p2.pdf_url = p.pdf_url ∧ p2.categories = p.categories ∧
      p2.primary_category = p.primary_category)
    ∧ ∀ (papers out : List Paper) (i : Nat) (p p2 : Paper),
      ArxivAnalyzer.batch_analyze_papers provider kind papers = .ok out →
      papers[i]? = some p → out[i]? = some p2 →
      p2.title = p.title ∧ p2.authors = p.authors ∧ p2.summary = p.summary ∧
      p2.published = p.published ∧ p2.updated = p.updated ∧ p2.arxiv_id = p.arxiv_id ∧
      p2.pdf_url = p.pdf_url ∧ p2.categories = p.categories ∧
      p2.primary_category = p.primary_category := by
  constructor
  · intro papers i p p2 hp hout
    rw [gemini_batch_getElem, hp] at hout
    cases h : analyze_paper provider p kind none with
    | ok a =>
      simp only [h, Option.map_some', Option.some.injEq] at hout
      subst hout
      exact ⟨rfl, rfl, rfl, rfl, rfl, rfl, rfl, rfl, rfl⟩
    | error e =>
      simp only [h, Option.map_some', Option.some.injEq] at hout
      subst hout
      exact ⟨rfl, rfl, rfl, rfl, rfl, rfl, rfl, rfl, rfl⟩
  · intro papers out i p p2 hok hp hout
    obtain ⟨a, _, ho⟩ := (claude_batch_ok_spec provider kind papers out hok).2 i p hp
    rw [ho] at hout
    simp only [Option.some.injEq] at hout
    subst hout
    exact ⟨rfl, rfl, rfl, rfl, rfl, rfl, rfl, rfl, rfl⟩

theorem claim10_witness :
    ({ paperA with analysis := some "generated analysis text" } : Paper).title = paperA.title ∧
    ({ paperA with analysis := some "generated analysis text" } : Paper).authors = paperA.authors ∧
    ({ paperA with analysis := some "generated analysis text" } : Paper).summary = paperA.summary ∧
    ({ paperA with analysis := some "generated analysis text" } : Paper).published = paperA.published ∧
    ({ paperA with analysis := some "generated analysis text" } : Paper).updated = paperA.updated ∧
    ({ paperA with analysis := some "generated analysis text" } : Paper).arxiv_id = paperA.arxiv_id ∧
    ({ paperA with analysis := some "generated analysis text" } : Paper).pdf_url = paperA.pdf_url ∧
    ({ paperA with analysis := some "generated analysis text" } : Paper).categories = paperA.categories ∧
    ({ paperA with analysis := some "generated analysis text" } : Paper).primary_category = paperA.primary_category :=
  (claim10_frame okProvider "summary").1 [paperA] 0 paperA
    { paperA with analysis := some "generated analysis text" } rfl rfl
